import Mathlib

/-
Verification of the odin-wallet ledger and transfer engine.

The embedding follows the Go source:
  * internal/models (transaction.go, account model): account/transaction
    types, the legal-transaction-type table;
  * the transaction handler (TransactionHandler.Create,
    TransactionHandler.Transfer): the single-leg engine and the transfer
    engine, modelled as pure state-passing functions over an explicit
    database state;
  * the exchange service (ExchangeService.GetRate / Convert): the rate
    cache, modelled as an association list keyed by "FROM_TO" strings.

Monetary values (float64 in Go, REAL in SQLite) are modelled as exact
rationals (ℚ), the numeric semantics the specification's scenarios assume.
Timestamps (created_at / updated_at) are not modelled: no claim depends on
them. SQL tables are modelled as lists of rows; UPDATE ... WHERE id = ? is
a map over the list touching the matching rows; the autoincrement primary
key is an explicit counter. The handlers' atomic unit (db.Begin ... Commit)
is modelled by a commit oracle `commit : Nat → Bool` giving the outcome of
the n-th commit attempt of the call: on a failed commit the Go code rolls
back (defer tx.Rollback()), so the returned state is the input state.
Every error path of the handler returns the state unchanged together with
the error kind.
-/

namespace Wallet

/-- Account types, mirroring models.AccountType ("cash", "debit",
"credit_card", "loan", "saving", "investment"). -/
inductive AccountType where
  | cash
  | debit
  | creditCard
  | loan
  | saving
  | investment
deriving DecidableEq, Repr

/-- Transaction types, mirroring models.TransactionType ("deposit",
"withdrawal", "expense", "payment"). -/
inductive TransactionType where
  | deposit
  | withdrawal
  | expense
  | payment
deriving DecidableEq, Repr

/-- mirrors models.ValidTransactionTypesForAccount. -/
def ValidTransactionTypesForAccount : AccountType → List TransactionType
  | .cash | .debit | .saving | .investment => [.deposit, .withdrawal]
  | .creditCard => [.expense, .payment]
  | .loan => [.payment]

/-- mirrors models.IsValidTransactionType: membership in the list of valid
types for the account type. -/
def IsValidTransactionType (txType : TransactionType) (accountType : AccountType) : Bool :=
  (ValidTransactionTypesForAccount accountType).contains txType

/-- mirrors the assetTypes map in TransactionHandler.Transfer (and
Account.IsAssetAccount in the models package). -/
def isAssetType : AccountType → Bool
  | .cash | .debit | .saving | .investment => true
  | .creditCard | .loan => false

/-- mirrors the validDestTypes map in TransactionHandler.Transfer: every one
of the six account types is an allowed transfer destination. -/
def validDestType : AccountType → Bool
  | .cash | .debit | .saving | .investment => true
  | .creditCard | .loan => true

/-- One row of the accounts table, with the columns the engine reads:
id, user_id, name, type, currency, current_balance, and the two nullable
liability columns credit_owed and loan_current_owed (sql.NullFloat64,
modelled as Option ℚ). -/
structure Account where
  id : Int
  userId : Int
  name : String
  type : AccountType
  currency : String
  currentBalance : ℚ
  creditOwed : Option ℚ
  loanCurrentOwed : Option ℚ
deriving DecidableEq, Repr

/-- One row of the transactions table: id, account_id, type, amount,
description, category, balance_after, linked_transaction_id (nullable). -/
structure Transaction where
  id : Int
  accountId : Int
  type : TransactionType
  amount : ℚ
  description : String
  category : String
  balanceAfter : ℚ
  linkedTransactionId : Option Int
deriving DecidableEq, Repr

/-- The durable store: the accounts table, the transactions table, and the
next autoincrement id for the transactions table. -/
structure DBState where
  accounts : List Account
  transactions : List Transaction
  nextTxId : Int
deriving DecidableEq, Repr

/-- mirrors SELECT ... FROM accounts WHERE id = ? AND user_id = ?:
the first row matching both the account id and the owning user. -/
def findAccount (db : DBState) (accountId userId : Int) : Option Account :=
  db.accounts.find? (fun a => a.id == accountId && a.userId == userId)

/-- mirrors UPDATE accounts SET <field> = ? WHERE id = ?: apply the field
update f to every row whose id matches. -/
def updateAccounts (accs : List Account) (accountId : Int) (f : Account → Account) :
    List Account :=
  accs.map (fun a => if a.id == accountId then f a else a)

/-- mirrors UPDATE transactions SET linked_transaction_id = ? WHERE id = ?. -/
def setLinked (ts : List Transaction) (txId linkedId : Int) : List Transaction :=
  ts.map (fun t => if t.id == txId then { t with linkedTransactionId := some linkedId } else t)

/-- The error kinds of the engine (section 7 of the specification), as
surfaced by the two handlers and the exchange service. -/
inductive Err where
  | notFound
  | invalidTransactionType
  | invalidAmount
  | sameAccount
  | invalidDirection
  | conversionUnavailable
  | rateUnavailable
  | commitFailed
deriving DecidableEq, Repr

/-- The balance-transition switch of TransactionHandler.Create: for asset
accounts a deposit adds and anything else (a withdrawal, by validation)
subtracts from current_balance; for a credit card an expense adds and
anything else (a payment) subtracts from credit_owed (NULL read as 0); for
a loan the only valid type (payment) subtracts from loan_current_owed. -/
def computeBalanceAfter (acc : Account) (txType : TransactionType) (amount : ℚ) : ℚ :=
  match acc.type with
  | .cash | .debit | .saving | .investment =>
      if txType = .deposit then acc.currentBalance + amount
      else acc.currentBalance - amount
  | .creditCard =>
      if txType = .expense then acc.creditOwed.getD 0 + amount
      else acc.creditOwed.getD 0 - amount
  | .loan => acc.loanCurrentOwed.getD 0 - amount

/-- The account-side write of the switch in TransactionHandler.Create /
Transfer: which column the UPDATE statement sets, per account type. -/
def applyBalanceUpdate (t : AccountType) (v : ℚ) (a : Account) : Account :=
  match t with
  | .cash | .debit | .saving | .investment => { a with currentBalance := v }
  | .creditCard => { a with creditOwed := some v }
  | .loan => { a with loanCurrentOwed := some v }

/-- The authoritative stored balance of an account, per account type:
current_balance for asset accounts, credit_owed for credit cards,
loan_current_owed for loans (NULL read as 0, as the handlers do). -/
def storedBalance (a : Account) : ℚ :=
  match a.type with
  | .cash | .debit | .saving | .investment => a.currentBalance
  | .creditCard => a.creditOwed.getD 0
  | .loan => a.loanCurrentOwed.getD 0

/-- The body of a create-transaction request (models.CreateTransactionRequest). -/
structure CreateReq where
  type : TransactionType
  amount : ℚ
  description : String
  category : String
deriving DecidableEq, Repr

/-- TransactionHandler.Create: fetch the account (ownership checked in the
WHERE clause), validate the transaction type against the account type, then
the amount, default an empty category to "other", compute the new balance
per the switch, and atomically update the account column and insert the
transaction row. Any error leaves the state unchanged (rollback). -/
def createTransaction (commit : Nat → Bool) (db : DBState) (userId accountId : Int)
    (req : CreateReq) : DBState × Except Err Transaction :=
  match findAccount db accountId userId with
  | none => (db, .error .notFound)
  | some acc =>
    if IsValidTransactionType req.type acc.type = false then
      (db, .error .invalidTransactionType)
    else if req.amount ≤ 0 then
      (db, .error .invalidAmount)
    else
      let category := if req.category = "" then "other" else req.category
      let balanceAfter := computeBalanceAfter acc req.type req.amount
      if commit 0 = false then
        (db, .error .commitFailed)
      else
        let tx : Transaction :=
          { id := db.nextTxId, accountId := accountId, type := req.type,
            amount := req.amount, description := req.description,
            category := category, balanceAfter := balanceAfter,
            linkedTransactionId := none }
        ({ accounts := updateAccounts db.accounts accountId
              (applyBalanceUpdate acc.type balanceAfter),
           transactions := db.transactions ++ [tx],
           nextTxId := db.nextTxId + 1 },
         .ok tx)

/-- The rate cache of the exchange service: the in-memory map
rates : "FROM_TO" -> rate, modelled as an association list keyed by the
same concatenated strings the Go code builds (from ++ "_" ++ to). -/
structure ExchangeService where
  rates : List (String × ℚ)
deriving DecidableEq, Repr

/-- ExchangeService.GetRate: 1.0 when the two currencies are equal,
otherwise the cache entry under the key from ++ "_" ++ to (the Go (rate,
ok) pair is an Option here). -/
def GetRate (s : ExchangeService) (fromCur toCur : String) : Option ℚ :=
  if fromCur = toCur then some 1
  else s.rates.lookup (fromCur ++ "_" ++ toCur)

/-- ExchangeService.Convert: look the rate up; absent rate is an error
(RateUnavailable), otherwise return amount * rate. -/
def Convert (s : ExchangeService) (amount : ℚ) (fromCur toCur : String) : Except Err ℚ :=
  match GetRate s fromCur toCur with
  | none => .error .rateUnavailable
  | some rate => .ok (amount * rate)

/-- The currency-conversion step of TransactionHandler.Transfer: the
destination amount starts as the requested amount and is replaced by the
converted amount when the two accounts' currencies differ; a conversion
failure aborts the transfer (the handler substitutes its own error,
ConversionUnavailable in the specification's taxonomy). -/
def transferConvert (cache : ExchangeService) (amount : ℚ) (fromCur toCur : String) :
    Except Err ℚ :=
  if fromCur ≠ toCur then
    match Convert cache amount fromCur toCur with
    | .error _ => .error .conversionUnavailable
    | .ok v => .ok v
  else .ok amount

/-- The destination leg's transaction type in TransactionHandler.Transfer:
deposit into an asset account, payment into a credit card or loan. -/
def destTxType : AccountType → TransactionType
  | .cash | .debit | .saving | .investment => .deposit
  | .creditCard | .loan => .payment

/-- The destination-side new balance of TransactionHandler.Transfer:
asset accounts are credited, liability accounts have their owed amount
reduced (payment semantics), NULL owed read as 0. -/
def transferDestBalance (toAcc : Account) (toAmount : ℚ) : ℚ :=
  match toAcc.type with
  | .cash | .debit | .saving | .investment => toAcc.currentBalance + toAmount
  | .creditCard => toAcc.creditOwed.getD 0 - toAmount
  | .loan => toAcc.loanCurrentOwed.getD 0 - toAmount

/-- The body of a transfer request (models.TransferRequest). -/
structure TransferReq where
  fromAccountId : Int
  toAccountId : Int
  amount : ℚ
  description : String
deriving DecidableEq, Repr

/-- The caller-facing response of TransactionHandler.Transfer: the source
(withdrawal) transaction, plus converted_amount and to_currency fields that
are present exactly when the handler wraps the response in the
cross-currency map. -/
structure TransferResponse where
  transaction : Transaction
  convertedAmount : Option ℚ
  toCurrency : Option String
deriving DecidableEq, Repr

/-- TransactionHandler.Transfer: validate the amount, reject same-account
transfers, fetch both accounts (ownership in the WHERE clause), require an
asset-type source and a known destination type, convert the amount when the
currencies differ, then atomically debit the source's current_balance,
credit/pay down the destination's column, insert the two legs and link them
to each other. The response carries the source transaction (with its link
set) and, when the currencies differ, the converted amount and destination
currency. Any error leaves the state unchanged (rollback). -/
def transfer (commit : Nat → Bool) (cache : ExchangeService) (db : DBState)
    (userId : Int) (req : TransferReq) : DBState × Except Err TransferResponse :=
  if req.amount ≤ 0 then (db, .error .invalidAmount)
  else if req.fromAccountId == req.toAccountId then (db, .error .sameAccount)
  else
    match findAccount db req.fromAccountId userId with
    | none => (db, .error .notFound)
    | some fromAccount =>
      match findAccount db req.toAccountId userId with
      | none => (db, .error .notFound)
      | some toAccount =>
        if isAssetType fromAccount.type = false then (db, .error .invalidDirection)
        else if validDestType toAccount.type = false then (db, .error .invalidDirection)
        else
          match transferConvert cache req.amount fromAccount.currency toAccount.currency with
          | .error e => (db, .error e)
          | .ok toAmount =>
            let fromAmount := req.amount
            let fromNewBalance := fromAccount.currentBalance - fromAmount
            let toNewBalance := transferDestBalance toAccount toAmount
            if commit 0 = false then (db, .error .commitFailed)
            else
              let description := if req.description = "" then "Transfer" else req.description
              let fromDescription := description ++ " → " ++ toAccount.name
              let toDescription := description ++ " ← " ++ fromAccount.name
              let fromTxId := db.nextTxId
              let toTxId := db.nextTxId + 1
              let fromTx : Transaction :=
                { id := fromTxId, accountId := fromAccount.id, type := .withdrawal,
                  amount := fromAmount, description := fromDescription,
                  category := "transfer", balanceAfter := fromNewBalance,
                  linkedTransactionId := none }
              let toTx : Transaction :=
                { id := toTxId, accountId := toAccount.id, type := destTxType toAccount.type,
                  amount := toAmount, description := toDescription,
                  category := "transfer", balanceAfter := toNewBalance,
                  linkedTransactionId := none }
              let accounts1 := updateAccounts db.accounts fromAccount.id
                (fun a => { a with currentBalance := fromNewBalance })
              let accounts2 := updateAccounts accounts1 toAccount.id
                (applyBalanceUpdate toAccount.type toNewBalance)
              let txs := setLinked (setLinked (db.transactions ++ [fromTx, toTx])
                fromTxId toTxId) toTxId fromTxId
              let response : TransferResponse :=
                { transaction := { fromTx with linkedTransactionId := some toTxId },
                  convertedAmount :=
                    if fromAccount.currency ≠ toAccount.currency then some toAmount else none,
                  toCurrency :=
                    if fromAccount.currency ≠ toAccount.currency then some toAccount.currency
                    else none }
              ({ accounts := accounts2, transactions := txs, nextTxId := db.nextTxId + 2 },
               .ok response)

/-
Interleaving model for concurrent TransactionHandler.Create calls
specialised to Deposit(1) on one asset account. Each call has two atomic
phases, taken directly from the handler's structure:
  * the read phase: the h.db.QueryRow that loads current_balance runs
    BEFORE h.db.Begin(), outside the database transaction;
  * the write phase: the database transaction (Begin / UPDATE accounts SET
    current_balance = <value computed from the earlier read> / INSERT the
    row / Commit), which is atomic.
A schedule is the order in which the pending calls take their next phase.
-/

/-- The progress of one in-flight Deposit(1) call: it has not yet read the
balance, it has read the value it will base its write on, or it has
committed. -/
inductive DepositPhase where
  | toRead
  | toWrite (readValue : ℚ)
  | finished
deriving DecidableEq, Repr

/-- Shared state of the interleaving model: the account's stored balance,
the number of committed transaction rows, and the per-call progress. -/
structure ConcurrentState where
  balance : ℚ
  rowCount : Nat
  calls : List DepositPhase
deriving DecidableEq, Repr

/-- Run the next phase of call i: a pending read snapshots the shared
balance (the pre-Begin QueryRow); a pending write commits the precomputed
balance readValue + 1 and appends one row (the atomic unit of the
handler); a finished call does nothing. -/
def stepCall (s : ConcurrentState) (i : Nat) : ConcurrentState :=
  match s.calls.get? i with
  | none => s
  | some .toRead => { s with calls := s.calls.set i (.toWrite s.balance) }
  | some (.toWrite v) =>
      { s with
        balance := v + 1
        rowCount := s.rowCount + 1
        calls := s.calls.set i .finished }
  | some .finished => s

/-- Run a schedule: the list of call indices, in the order their phases are
scheduled. -/
def runSchedule (s : ConcurrentState) : List Nat → ConcurrentState
  | [] => s
  | i :: rest => runSchedule (stepCall s i) rest

/-- n concurrent Deposit(1) calls on a fresh account with balance 0. -/
def initConcurrent (n : Nat) : ConcurrentState :=
  { balance := 0, rowCount := 0, calls := List.replicate n .toRead }

/-
Concrete fixtures used by witnesses and counterexamples.
-/

/-- A debit (asset) account in USD with balance 100, owned by user 1. -/
def accChecking : Account :=
  { id := 1, userId := 1, name := "Checking", type := .debit, currency := "USD",
    currentBalance := 100, creditOwed := none, loanCurrentOwed := none }

/-- A saving (asset) account in EUR with balance 0, owned by user 1. -/
def accSavings : Account :=
  { id := 2, userId := 1, name := "Savings", type := .saving, currency := "EUR",
    currentBalance := 0, creditOwed := none, loanCurrentOwed := none }

/-- A credit card owing 200 USD, owned by user 1. -/
def accCard : Account :=
  { id := 3, userId := 1, name := "Card", type := .creditCard, currency := "USD",
    currentBalance := 0, creditOwed := some 200, loanCurrentOwed := none }

/-- A database with the three fixture accounts, no transactions, next
transaction id 1. -/
def dbFixture : DBState :=
  { accounts := [accChecking, accSavings, accCard], transactions := [], nextTxId := 1 }

/-- A rate cache holding USD -> EUR = 0.92. -/
def cacheFixture : ExchangeService :=
  { rates := [("USD_EUR", 92/100)] }

/-- The always-succeeding commit oracle (a failure-free store). -/
def commitOk : Nat → Bool := fun _ => true

/-- A commit oracle whose first attempt fails and whose later attempts
would succeed. -/
def commitFailsFirst : Nat → Bool := fun n => n != 0

/-- The balance delta the specification's table assigns to each transaction
type: deposits and expenses add the amount, withdrawals and payments
subtract it. -/
def signedAmount (t : TransactionType) (amount : ℚ) : ℚ :=
  match t with
  | .deposit | .expense => amount
  | .withdrawal | .payment => -amount

/-- The transaction row inserted by a successful TransactionHandler.Create
call. -/
def createdTransaction (db : DBState) (accountId : Int) (req : CreateReq)
    (acc : Account) : Transaction :=
  { id := db.nextTxId, accountId := accountId, type := req.type, amount := req.amount,
    description := req.description,
    category := if req.category = "" then "other" else req.category,
    balanceAfter := computeBalanceAfter acc req.type req.amount,
    linkedTransactionId := none }

/-- The source-leg row inserted by a successful transfer (before linking). -/
def transferSourceTx (db : DBState) (req : TransferReq) (fromAcc toAcc : Account) :
    Transaction :=
  { id := db.nextTxId, accountId := fromAcc.id, type := .withdrawal, amount := req.amount,
    description :=
      (if req.description = "" then "Transfer" else req.description) ++ " → " ++ toAcc.name,
    category := "transfer", balanceAfter := fromAcc.currentBalance - req.amount,
    linkedTransactionId := none }

/-- The destination-leg row inserted by a successful transfer (before
linking). -/
def transferDestTx (db : DBState) (req : TransferReq) (fromAcc toAcc : Account)
    (toAmount : ℚ) : Transaction :=
  { id := db.nextTxId + 1, accountId := toAcc.id, type := destTxType toAcc.type,
    amount := toAmount,
    description :=
      (if req.description = "" then "Transfer" else req.description) ++ " ← " ++ fromAcc.name,
    category := "transfer", balanceAfter := transferDestBalance toAcc toAmount,
    linkedTransactionId := none }

theorem validDestType_true (t : AccountType) : validDestType t = true := by
  cases t <;> rfl

theorem applyBalanceUpdate_id (t : AccountType) (v : ℚ) (a : Account) :
    (applyBalanceUpdate t v a).id = a.id := by
  cases t <;> rfl

theorem applyBalanceUpdate_userId (t : AccountType) (v : ℚ) (a : Account) :
    (applyBalanceUpdate t v a).userId = a.userId := by
  cases t <;> rfl

theorem applyBalanceUpdate_type (t : AccountType) (v : ℚ) (a : Account) :
    (applyBalanceUpdate t v a).type = a.type := by
  cases t <;> rfl

theorem storedBalance_applyBalanceUpdate (v : ℚ) (a : Account) :
    storedBalance (applyBalanceUpdate a.type v a) = v := by
  cases h : a.type <;>
    simp [applyBalanceUpdate, storedBalance, h]

/-- For every transaction type legal on the account's type, the handler's
balance switch agrees with the specification's signed-delta table applied
to the authoritative stored balance. -/
theorem computeBalanceAfter_eq_signed (acc : Account) (ty : TransactionType) (amt : ℚ)
    (hvalid : IsValidTransactionType ty acc.type = true) :
    computeBalanceAfter acc ty amt = storedBalance acc + signedAmount ty amt := by
  cases hat : acc.type <;> cases ty <;>
    simp_all [IsValidTransactionType, ValidTransactionTypesForAccount,
      computeBalanceAfter, storedBalance, signedAmount, sub_eq_add_neg]

/-- find? commutes with a map that preserves the predicate. -/
theorem find?_map_pred {α : Type} (l : List α) (p : α → Bool) (g : α → α)
    (hp : ∀ a, p (g a) = p a) : (l.map g).find? p = (l.find? p).map g := by
  induction l with
  | nil => rfl
  | cons a l ih =>
    by_cases h : p a = true
    · simp [List.find?_cons, hp a, h]
    · rw [Bool.not_eq_true] at h
      simp [List.find?_cons, hp a, h, ih]

/-- Looking an account up after an UPDATE ... WHERE id = ? returns the
looked-up row with the update applied when its id matches, unchanged
otherwise, provided the update touches neither id nor user_id. -/
theorem findAccount_updateAccounts (accs : List Account) (ts : List Transaction)
    (n accountId userId targetId : Int) (f : Account → Account)
    (hid : ∀ a, (f a).id = a.id) (huid : ∀ a, (f a).userId = a.userId) :
    findAccount ⟨updateAccounts accs targetId f, ts, n⟩ accountId userId =
      (findAccount ⟨accs, ts, n⟩ accountId userId).map
        (fun a => if a.id == targetId then f a else a) := by
  unfold findAccount updateAccounts
  apply find?_map_pred
  intro a
  by_cases h : a.id == targetId
  · simp [h, hid a, huid a]
  · simp [h]

/-- A successful single-leg create: the equation of
TransactionHandler.Create on the happy path. -/
theorem createTransaction_success (commit : Nat → Bool) (db : DBState)
    (userId accountId : Int) (req : CreateReq) (acc : Account)
    (hacc : findAccount db accountId userId = some acc)
    (hvalid : IsValidTransactionType req.type acc.type = true)
    (hamt : 0 < req.amount) (hcommit : commit 0 = true) :
    createTransaction commit db userId accountId req =
      ({ accounts := updateAccounts db.accounts accountId
            (applyBalanceUpdate acc.type (computeBalanceAfter acc req.type req.amount)),
         transactions := db.transactions ++ [createdTransaction db accountId req acc],
         nextTxId := db.nextTxId + 1 },
       .ok (createdTransaction db accountId req acc)) := by
  unfold createTransaction
  rw [hacc]
  simp [hvalid, hcommit, not_le.mpr hamt, createdTransaction]

/-- A successful transfer: the equation of TransactionHandler.Transfer on
the happy path. -/
theorem transfer_success (commit : Nat → Bool) (cache : ExchangeService) (db : DBState)
    (userId : Int) (req : TransferReq) (fromAcc toAcc : Account) (toAmount : ℚ)
    (hamt : 0 < req.amount)
    (hneq : req.fromAccountId ≠ req.toAccountId)
    (hfrom : findAccount db req.fromAccountId userId = some fromAcc)
    (hto : findAccount db req.toAccountId userId = some toAcc)
    (hasset : isAssetType fromAcc.type = true)
    (hconv : transferConvert cache req.amount fromAcc.currency toAcc.currency = .ok toAmount)
    (hcommit : commit 0 = true) :
    transfer commit cache db userId req =
      ({ accounts := updateAccounts
            (updateAccounts db.accounts fromAcc.id
              (fun a => { a with currentBalance := fromAcc.currentBalance - req.amount }))
            toAcc.id (applyBalanceUpdate toAcc.type (transferDestBalance toAcc toAmount)),
         transactions := setLinked (setLinked (db.transactions ++
            [transferSourceTx db req fromAcc toAcc,
             transferDestTx db req fromAcc toAcc toAmount])
            db.nextTxId (db.nextTxId + 1)) (db.nextTxId + 1) db.nextTxId,
         nextTxId := db.nextTxId + 2 },
       .ok { transaction := { transferSourceTx db req fromAcc toAcc with
               linkedTransactionId := some (db.nextTxId + 1) },
             convertedAmount :=
               if fromAcc.currency ≠ toAcc.currency then some toAmount else none,
             toCurrency :=
               if fromAcc.currency ≠ toAcc.currency then some toAcc.currency else none }) := by
  unfold transfer
  rw [hfrom, hto]
  simp [not_le.mpr hamt, hneq, hasset, validDestType_true, hcommit, hconv,
    transferSourceTx, transferDestTx]

/-- A row found by findAccount matches the queried id and user id (the
WHERE clause of the SELECT). -/
theorem findAccount_some_ids (db : DBState) (accountId userId : Int) (acc : Account)
    (h : findAccount db accountId userId = some acc) :
    acc.id = accountId ∧ acc.userId = userId := by
  unfold findAccount at h
  have hp := List.find?_some h
  simp only [Bool.and_eq_true, beq_iff_eq] at hp
  exact hp

/-- Deposits and withdrawals are the legal transaction types of every
asset-type account. -/
theorem isAsset_valid_types (t : AccountType) (h : isAssetType t = true) :
    IsValidTransactionType .deposit t = true ∧
      IsValidTransactionType .withdrawal t = true := by
  cases t <;> first
    | exact ⟨rfl, rfl⟩
    | exact absurd h (by decide)

/-- Linking a transaction id that occurs in none of the rows leaves the
table unchanged. -/
theorem setLinked_notmem (ts : List Transaction) (txId linkedId : Int)
    (h : ∀ t ∈ ts, t.id ≠ txId) : setLinked ts txId linkedId = ts := by
  induction ts with
  | nil => rfl
  | cons a ts ih =>
    unfold setLinked
    simp only [List.map_cons]
    rw [if_neg (by simp [h a (List.mem_cons_self a ts)])]
    have := ih (fun t ht => h t (List.mem_cons_of_mem a ht))
    unfold setLinked at this
    rw [this]

/-- setLinked distributes over an append whose left part does not contain
the target id. -/
theorem setLinked_append (ts extra : List Transaction) (txId linkedId : Int)
    (h : ∀ t ∈ ts, t.id ≠ txId) :
    setLinked (ts ++ extra) txId linkedId = ts ++ setLinked extra txId linkedId := by
  unfold setLinked
  rw [List.map_append]
  congr 1
  have := setLinked_notmem ts txId linkedId h
  unfold setLinked at this
  exact this

/-- The two UPDATE statements linking the transfer legs, applied to a table
whose pre-existing rows have ids below the fresh ids n and n + 1, append
the two legs with mutual back-references and touch nothing else. -/
theorem transfer_txs_eq (old : List Transaction) (s t : Transaction) (n : Int)
    (hs : s.id = n) (ht : t.id = n + 1) (hold : ∀ u ∈ old, u.id < n) :
    setLinked (setLinked (old ++ [s, t]) n (n + 1)) (n + 1) n =
      old ++ [{ s with linkedTransactionId := some (n + 1) },
              { t with linkedTransactionId := some n }] := by
  have hne : (n + 1 : Int) ≠ n := by omega
  rw [setLinked_append old [s, t] n (n + 1)
        (fun u hu => by have := hold u hu; omega)]
  have h1 : setLinked [s, t] n (n + 1) =
      [{ s with linkedTransactionId := some (n + 1) }, t] := by
    unfold setLinked
    simp [hs, ht, hne]
  rw [h1]
  rw [setLinked_append old _ (n + 1) n
        (fun u hu => by have := hold u hu; omega)]
  unfold setLinked
  simp [hs, ht, hne]

/-- Every run of the single-leg engine either succeeds or leaves the
durable state exactly as it was (the rollback guarantee of the embedding,
mirroring defer tx.Rollback() and the pre-transaction validation). -/
theorem createTransaction_state_or (commit : Nat → Bool) (db : DBState)
    (userId accountId : Int) (req : CreateReq) :
    (∃ tx, (createTransaction commit db userId accountId req).2 = .ok tx) ∨
      (createTransaction commit db userId accountId req).1 = db := by
  unfold createTransaction
  cases hacc : findAccount db accountId userId with
  | none => right; rfl
  | some acc =>
    by_cases h1 : IsValidTransactionType req.type acc.type = false
    · right; simp [h1]
    · by_cases h2 : req.amount ≤ 0
      · right; simp [h1, h2]
      · by_cases h3 : commit 0 = false
        · right; simp [h1, h2, h3]
        · left
          exact ⟨createdTransaction db accountId req acc,
            by simp [h1, h2, h3, createdTransaction]⟩

/-- Every run of the transfer engine either succeeds or leaves the durable
state exactly as it was. -/
theorem transfer_state_or (commit : Nat → Bool) (cache : ExchangeService) (db : DBState)
    (userId : Int) (req : TransferReq) :
    (∃ r, (transfer commit cache db userId req).2 = .ok r) ∨
      (transfer commit cache db userId req).1 = db := by
  by_cases h1 : req.amount ≤ 0
  · right; unfold transfer; simp [h1]
  · by_cases h2 : (req.fromAccountId == req.toAccountId) = true
    · right; unfold transfer; simp [h1, h2]
    · cases hfrom : findAccount db req.fromAccountId userId with
      | none => right; unfold transfer; simp [h1, h2, hfrom]
      | some fromAcc =>
        cases hto : findAccount db req.toAccountId userId with
        | none => right; unfold transfer; simp [h1, h2, hfrom, hto]
        | some toAcc =>
          by_cases h3 : isAssetType fromAcc.type = false
          · right; unfold transfer; simp [h1, h2, hfrom, hto, h3]
          · cases hconv : transferConvert cache req.amount fromAcc.currency toAcc.currency with
            | error e =>
              right; unfold transfer
              simp [h1, h2, hfrom, hto, h3, validDestType_true, hconv]
            | ok v =>
              by_cases h4 : commit 0 = false
              · right; unfold transfer
                simp [h1, h2, hfrom, hto, h3, validDestType_true, hconv, h4]
              · left
                rw [transfer_success commit cache db userId req fromAcc toAcc v
                      (not_le.mp h1) (by simpa using h2) hfrom hto
                      (by simpa using h3) hconv (by simpa using h4)]
                exact ⟨_, rfl⟩

/-- Looking up the very account an UPDATE targeted returns its updated row. -/
theorem findAccount_after_update (db : DBState) (ts : List Transaction) (n : Int)
    (accountId userId : Int) (acc : Account) (f : Account → Account)
    (hid : ∀ a, (f a).id = a.id) (huid : ∀ a, (f a).userId = a.userId)
    (hacc : findAccount db accountId userId = some acc) :
    findAccount ⟨updateAccounts db.accounts accountId f, ts, n⟩ accountId userId =
      some (f acc) := by
  rw [findAccount_updateAccounts db.accounts ts n accountId userId accountId f hid huid]
  have h0 : findAccount ⟨db.accounts, ts, n⟩ accountId userId = some acc := hacc
  rw [h0]
  have hids := findAccount_some_ids db accountId userId acc hacc
  simp [hids.1]

/-- Looking up an account an UPDATE did not target returns it unchanged. -/
theorem findAccount_after_update_other (db : DBState) (ts : List Transaction) (n : Int)
    (accountId userId targetId : Int) (acc : Account) (f : Account → Account)
    (hid : ∀ a, (f a).id = a.id) (huid : ∀ a, (f a).userId = a.userId)
    (hacc : findAccount db accountId userId = some acc)
    (hne : acc.id ≠ targetId) :
    findAccount ⟨updateAccounts db.accounts targetId f, ts, n⟩ accountId userId =
      some acc := by
  rw [findAccount_updateAccounts db.accounts ts n accountId userId targetId f hid huid]
  have h0 : findAccount ⟨db.accounts, ts, n⟩ accountId userId = some acc := hacc
  rw [h0]
  simp [hne]

/-- C1: for every account owned by the caller and every legal pairing of a
transaction type with a strictly positive amount, a successful
applyTransaction appends exactly one transaction row whose balanceAfter
equals the account's stored authoritative balance after the call, and that
stored balance equals the prior one plus the amount for deposits/expenses
and minus the amount for withdrawals/payments. -/
theorem create_balance_consistent (commit : Nat → Bool) (db : DBState)
    (userId accountId : Int) (req : CreateReq) (acc : Account)
    (hacc : findAccount db accountId userId = some acc)
    (hvalid : IsValidTransactionType req.type acc.type = true)
    (hamt : 0 < req.amount) (hcommit : commit 0 = true) :
    ∃ tx acc2,
      (createTransaction commit db userId accountId req).2 = .ok tx ∧
      (createTransaction commit db userId accountId req).1.transactions =
        db.transactions ++ [tx] ∧
      findAccount (createTransaction commit db userId accountId req).1 accountId userId =
        some acc2 ∧
      tx.balanceAfter = storedBalance acc2 ∧
      storedBalance acc2 = storedBalance acc + signedAmount req.type req.amount := by
  rw [createTransaction_success commit db userId accountId req acc hacc hvalid hamt hcommit]
  refine ⟨createdTransaction db accountId req acc,
    applyBalanceUpdate acc.type (computeBalanceAfter acc req.type req.amount) acc,
    rfl, rfl, ?_, ?_, ?_⟩
  · exact findAccount_after_update db _ _ accountId userId acc _
      (fun a => applyBalanceUpdate_id _ _ a) (fun a => applyBalanceUpdate_userId _ _ a) hacc
  · rw [storedBalance_applyBalanceUpdate]; rfl
  · rw [storedBalance_applyBalanceUpdate]
    exact computeBalanceAfter_eq_signed acc req.type req.amount hvalid

/-- A deposit request used by several witnesses. -/
def reqDeposit50 : CreateReq :=
  { type := .deposit, amount := 50, description := "groceries refund", category := "" }

/-- C1 witness: depositing 50 into the balance-100 checking account. -/
theorem create_balance_consistent_witness :
    findAccount dbFixture 1 1 = some accChecking ∧
    IsValidTransactionType TransactionType.deposit accChecking.type = true ∧
    (0 : ℚ) < 50 ∧ commitOk 0 = true ∧
    (∃ tx acc2,
      (createTransaction commitOk dbFixture 1 1 reqDeposit50).2 = .ok tx ∧
      (createTransaction commitOk dbFixture 1 1 reqDeposit50).1.transactions =
        dbFixture.transactions ++ [tx] ∧
      findAccount (createTransaction commitOk dbFixture 1 1 reqDeposit50).1 1 1 =
        some acc2 ∧
      tx.balanceAfter = storedBalance acc2 ∧
      storedBalance acc2 =
        storedBalance accChecking + signedAmount reqDeposit50.type reqDeposit50.amount) :=
  ⟨rfl, rfl, by norm_num, rfl,
    create_balance_consistent commitOk dbFixture 1 1 reqDeposit50 accChecking
      rfl rfl (by norm_num [reqDeposit50]) rfl⟩

/-- C10: the persisted row's category is "other" exactly when the request
came with an empty category; a non-empty category is stored unchanged. -/
theorem create_category_defaulting (commit : Nat → Bool) (db : DBState)
    (userId accountId : Int) (req : CreateReq) (acc : Account)
    (hacc : findAccount db accountId userId = some acc)
    (hvalid : IsValidTransactionType req.type acc.type = true)
    (hamt : 0 < req.amount) (hcommit : commit 0 = true) :
    ∃ tx,
      (createTransaction commit db userId accountId req).2 = .ok tx ∧
      (req.category = "" → tx.category = "other") ∧
      (req.category ≠ "" → tx.category = req.category) := by
  rw [createTransaction_success commit db userId accountId req acc hacc hvalid hamt hcommit]
  refine ⟨createdTransaction db accountId req acc, rfl, ?_, ?_⟩ <;>
    intro h <;> simp [createdTransaction, h]

/-- C10 witness: an empty category is stored as "other". -/
theorem create_category_defaulting_witness :
    findAccount dbFixture 1 1 = some accChecking ∧
    IsValidTransactionType TransactionType.deposit accChecking.type = true ∧
    (0 : ℚ) < 50 ∧ commitOk 0 = true ∧
    (∃ tx,
      (createTransaction commitOk dbFixture 1 1 reqDeposit50).2 = .ok tx ∧
      (reqDeposit50.category = "" → tx.category = "other") ∧
      (reqDeposit50.category ≠ "" → tx.category = reqDeposit50.category)) :=
  ⟨rfl, rfl, by norm_num, rfl,
    create_category_defaulting commitOk dbFixture 1 1 reqDeposit50 accChecking
      rfl rfl (by norm_num [reqDeposit50]) rfl⟩

/-- C8 (amended): under exact arithmetic on the amounts, Deposit(amount)
followed by Withdrawal(amount) on an asset account restores the stored
account row exactly — the engine applies no fees or other adjustments.
Under the code's float64 balance arithmetic the restoration holds only up
to binary64 rounding and can genuinely differ, so the original "restores
exactly for every balance and amount" is false of the code (see the
float64 counterexample below). -/
theorem deposit_withdraw_roundtrip (commit : Nat → Bool) (db : DBState)
    (userId accountId : Int) (amount : ℚ) (d1 c1 d2 c2 : String) (acc : Account)
    (hacc : findAccount db accountId userId = some acc)
    (hasset : isAssetType acc.type = true)
    (hamt : 0 < amount) (hcommit : commit 0 = true) :
    ∃ db1 t1,
      createTransaction commit db userId accountId
          { type := .deposit, amount := amount, description := d1, category := c1 } =
        (db1, .ok t1) ∧
      ∃ db2 t2,
        createTransaction commit db1 userId accountId
            { type := .withdrawal, amount := amount, description := d2, category := c2 } =
          (db2, .ok t2) ∧
        findAccount db2 accountId userId = some acc := by
  have hv := isAsset_valid_types acc.type hasset
  rw [createTransaction_success commit db userId accountId _ acc hacc hv.1 hamt hcommit]
  refine ⟨_, _, rfl, ?_⟩
  have hfind1 := findAccount_after_update db
    (db.transactions ++ [createdTransaction db accountId
      { type := .deposit, amount := amount, description := d1, category := c1 } acc])
    (db.nextTxId + 1) accountId userId acc
    (applyBalanceUpdate acc.type (computeBalanceAfter acc .deposit amount))
    (fun a => applyBalanceUpdate_id _ _ a) (fun a => applyBalanceUpdate_userId _ _ a) hacc
  have htype1 : (applyBalanceUpdate acc.type (computeBalanceAfter acc .deposit amount) acc).type
      = acc.type := applyBalanceUpdate_type _ _ _
  rw [createTransaction_success commit _ userId accountId _ _ hfind1
    (by rw [htype1]; exact hv.2) hamt hcommit]
  refine ⟨_, _, rfl, ?_⟩
  rw [findAccount_after_update _ _ _ accountId userId _ _
    (fun a => applyBalanceUpdate_id _ _ a) (fun a => applyBalanceUpdate_userId _ _ a) hfind1]
  congr 1
  cases h : acc.type <;>
    simp_all [isAssetType, applyBalanceUpdate, computeBalanceAfter, add_sub_cancel_right] <;>
    rw [← h]

/-- C8 witness: deposit 50 then withdraw 50 on the balance-100 checking
account restores the stored row. -/
theorem deposit_withdraw_roundtrip_witness :
    findAccount dbFixture 1 1 = some accChecking ∧
    isAssetType accChecking.type = true ∧ (0 : ℚ) < 50 ∧ commitOk 0 = true ∧
    (∃ db1 t1,
      createTransaction commitOk dbFixture 1 1
          { type := .deposit, amount := 50, description := "in", category := "" } =
        (db1, .ok t1) ∧
      ∃ db2 t2,
        createTransaction commitOk db1 1 1
            { type := .withdrawal, amount := 50, description := "out", category := "" } =
          (db2, .ok t2) ∧
        findAccount db2 1 1 = some accChecking) :=
  ⟨rfl, rfl, by norm_num, rfl,
    deposit_withdraw_roundtrip commitOk dbFixture 1 1 50 "in" "" "out" "" accChecking
      rfl rfl (by norm_num) rfl⟩

/-- C5: Convert returns the amount unchanged whenever the two currencies
are equal, for every cache state; multiplies by the cached rate when they
differ and the pair is cached; and fails with RateUnavailable exactly when
the currencies differ and the pair is not cached. -/
theorem convert_characterisation (s : ExchangeService) (amount : ℚ)
    (fromCur toCur : String) :
    (fromCur = toCur → Convert s amount fromCur toCur = .ok amount) ∧
    (∀ r, fromCur ≠ toCur → s.rates.lookup (fromCur ++ "_" ++ toCur) = some r →
      Convert s amount fromCur toCur = .ok (amount * r)) ∧
    (Convert s amount fromCur toCur = .error .rateUnavailable ↔
      fromCur ≠ toCur ∧ s.rates.lookup (fromCur ++ "_" ++ toCur) = none) := by
  refine ⟨?_, ?_, ?_⟩
  · intro h; simp [Convert, GetRate, h]
  · intro r hne hr; simp [Convert, GetRate, hne, hr]
  · constructor
    · intro h
      by_cases hne : fromCur = toCur
      · simp [Convert, GetRate, hne] at h
      · cases hl : s.rates.lookup (fromCur ++ "_" ++ toCur) with
        | none => exact ⟨hne, rfl⟩
        | some r => simp [Convert, GetRate, hne, hl] at h
    · rintro ⟨hne, hl⟩
      simp [Convert, GetRate, hne, hl]

/-- C5 witness: identity conversion with a cache that has no USD to USD
entry, a cached-pair conversion, and a missing-pair failure. -/
theorem convert_characterisation_witness :
    Convert cacheFixture 50 "USD" "USD" = .ok 50 ∧
    Convert cacheFixture 100 "USD" "EUR" = .ok (100 * (92 / 100)) ∧
    Convert cacheFixture 50 "USD" "JPY" = .error .rateUnavailable :=
  ⟨(convert_characterisation cacheFixture 50 "USD" "USD").1 rfl,
   (convert_characterisation cacheFixture 100 "USD" "EUR").2.1 (92 / 100)
     (by decide) rfl,
   (convert_characterisation cacheFixture 50 "USD" "JPY").2.2.mpr
     ⟨by decide, by decide⟩⟩

/-- The destination leg's type is deposit exactly on asset destinations,
payment on liability destinations, and never expense. -/
theorem destTxType_spec (t : AccountType) :
    (isAssetType t = true → destTxType t = .deposit) ∧
    (isAssetType t = false → destTxType t = .payment) ∧
    destTxType t ≠ .expense := by
  cases t <;> refine ⟨?_, ?_, ?_⟩ <;> simp [isAssetType, destTxType]

/-- C2: a successful transfer appends exactly two transaction rows: a
withdrawal on the source account and, on the destination, a deposit when
the destination is asset-style and a payment when it is a credit card or
loan (never an expense); after commit the two rows reference each other
through linkedTransactionId. -/
theorem transfer_two_linked_legs (commit : Nat → Bool) (cache : ExchangeService)
    (db : DBState) (userId : Int) (req : TransferReq) (fromAcc toAcc : Account)
    (toAmount : ℚ)
    (hamt : 0 < req.amount) (hneq : req.fromAccountId ≠ req.toAccountId)
    (hfrom : findAccount db req.fromAccountId userId = some fromAcc)
    (hto : findAccount db req.toAccountId userId = some toAcc)
    (hasset : isAssetType fromAcc.type = true)
    (hconv : transferConvert cache req.amount fromAcc.currency toAcc.currency = .ok toAmount)
    (hcommit : commit 0 = true)
    (hfresh : ∀ t ∈ db.transactions, t.id < db.nextTxId) :
    ∃ resp sTx dTx,
      (transfer commit cache db userId req).2 = .ok resp ∧
      (transfer commit cache db userId req).1.transactions =
        db.transactions ++ [sTx, dTx] ∧
      sTx.accountId = fromAcc.id ∧ sTx.type = .withdrawal ∧
      dTx.accountId = toAcc.id ∧
      (isAssetType toAcc.type = true → dTx.type = .deposit) ∧
      (isAssetType toAcc.type = false → dTx.type = .payment) ∧
      dTx.type ≠ .expense ∧
      sTx.linkedTransactionId = some dTx.id ∧
      dTx.linkedTransactionId = some sTx.id := by
  rw [transfer_success commit cache db userId req fromAcc toAcc toAmount
    hamt hneq hfrom hto hasset hconv hcommit]
  refine ⟨_,
    { transferSourceTx db req fromAcc toAcc with
      linkedTransactionId := some (db.nextTxId + 1) },
    { transferDestTx db req fromAcc toAcc toAmount with
      linkedTransactionId := some db.nextTxId },
    rfl, ?_, rfl, rfl, rfl, ?_, ?_, ?_, rfl, rfl⟩
  · exact transfer_txs_eq db.transactions _ _ db.nextTxId rfl rfl hfresh
  · exact (destTxType_spec toAcc.type).1
  · exact (destTxType_spec toAcc.type).2.1
  · exact (destTxType_spec toAcc.type).2.2

/-- Looking up the source account after the transfer's two UPDATE
statements (source first, then a destination with a different id) returns
the source row with only the first update applied. -/
theorem findAccount_double_update (accs : List Account) (ts : List Transaction) (n : Int)
    (qid userId tid : Int) (acc : Account) (f g : Account → Account)
    (hfid : ∀ a, (f a).id = a.id) (hfuid : ∀ a, (f a).userId = a.userId)
    (hgid : ∀ a, (g a).id = a.id) (hguid : ∀ a, (g a).userId = a.userId)
    (hacc : findAccount ⟨accs, ts, n⟩ qid userId = some acc)
    (hne : acc.id ≠ tid) :
    findAccount ⟨updateAccounts (updateAccounts accs acc.id f) tid g, ts, n⟩ qid userId =
      some (f acc) := by
  have hidq : acc.id = qid :=
    (findAccount_some_ids ⟨accs, ts, n⟩ qid userId acc hacc).1
  rw [hidq]
  have h1 : findAccount ⟨updateAccounts accs qid f, ts, n⟩ qid userId = some (f acc) :=
    findAccount_after_update ⟨accs, ts, n⟩ ts n qid userId acc f hfid hfuid hacc
  exact findAccount_after_update_other ⟨updateAccounts accs qid f, ts, n⟩ ts n qid userId
    tid (f acc) g hgid hguid h1 (by rw [hfid acc]; exact hne)

/-- C3: a same-currency transfer moves exactly the requested amount (the
destination leg carries that amount and the source balance drops by it); a
cross-currency transfer carries Convert(amount, from, to) and reports it;
and a missing rate aborts the whole transfer with ConversionUnavailable
before any mutation. -/
theorem transfer_conversion_behaviour (commit : Nat → Bool) (cache : ExchangeService)
    (db : DBState) (userId : Int) (req : TransferReq) (fromAcc toAcc : Account)
    (hamt : 0 < req.amount) (hneq : req.fromAccountId ≠ req.toAccountId)
    (hfrom : findAccount db req.fromAccountId userId = some fromAcc)
    (hto : findAccount db req.toAccountId userId = some toAcc)
    (hasset : isAssetType fromAcc.type = true)
    (hcommit : commit 0 = true)
    (hfresh : ∀ t ∈ db.transactions, t.id < db.nextTxId) :
    (fromAcc.currency = toAcc.currency →
      ∃ resp sTx dTx acc2,
        (transfer commit cache db userId req).2 = .ok resp ∧
        (transfer commit cache db userId req).1.transactions =
          db.transactions ++ [sTx, dTx] ∧
        dTx.amount = req.amount ∧
        findAccount (transfer commit cache db userId req).1 req.fromAccountId userId =
          some acc2 ∧
        acc2.currentBalance = fromAcc.currentBalance - req.amount) ∧
    (∀ v, fromAcc.currency ≠ toAcc.currency →
      Convert cache req.amount fromAcc.currency toAcc.currency = .ok v →
      ∃ resp sTx dTx,
        (transfer commit cache db userId req).2 = .ok resp ∧
        (transfer commit cache db userId req).1.transactions =
          db.transactions ++ [sTx, dTx] ∧
        dTx.amount = v ∧ resp.convertedAmount = some v) ∧
    (fromAcc.currency ≠ toAcc.currency →
      Convert cache req.amount fromAcc.currency toAcc.currency = .error .rateUnavailable →
      transfer commit cache db userId req = (db, .error .conversionUnavailable)) := by
  have hidF := (findAccount_some_ids db req.fromAccountId userId fromAcc hfrom).1
  have hidT := (findAccount_some_ids db req.toAccountId userId toAcc hto).1
  refine ⟨?_, ?_, ?_⟩
  · intro hcur
    have hconv : transferConvert cache req.amount fromAcc.currency toAcc.currency =
        .ok req.amount := by
      simp [transferConvert, hcur]
    rw [transfer_success commit cache db userId req fromAcc toAcc req.amount
      hamt hneq hfrom hto hasset hconv hcommit]
    refine ⟨_,
      { transferSourceTx db req fromAcc toAcc with
        linkedTransactionId := some (db.nextTxId + 1) },
      { transferDestTx db req fromAcc toAcc req.amount with
        linkedTransactionId := some db.nextTxId },
      { fromAcc with currentBalance := fromAcc.currentBalance - req.amount },
      rfl, transfer_txs_eq db.transactions _ _ db.nextTxId rfl rfl hfresh, rfl, ?_, rfl⟩
    exact findAccount_double_update db.accounts _ _ req.fromAccountId userId toAcc.id fromAcc
      (fun a => { a with currentBalance := fromAcc.currentBalance - req.amount })
      (applyBalanceUpdate toAcc.type (transferDestBalance toAcc req.amount))
      (fun a => rfl) (fun a => rfl)
      (fun a => applyBalanceUpdate_id _ _ a) (fun a => applyBalanceUpdate_userId _ _ a)
      hfrom (by rw [hidF, hidT]; exact hneq)
  · intro v hne hK
    have hconv : transferConvert cache req.amount fromAcc.currency toAcc.currency =
        .ok v := by
      simp [transferConvert, hne, hK]
    rw [transfer_success commit cache db userId req fromAcc toAcc v
      hamt hneq hfrom hto hasset hconv hcommit]
    exact ⟨_,
      { transferSourceTx db req fromAcc toAcc with
        linkedTransactionId := some (db.nextTxId + 1) },
      { transferDestTx db req fromAcc toAcc v with
        linkedTransactionId := some db.nextTxId },
      rfl, transfer_txs_eq db.transactions _ _ db.nextTxId rfl rfl hfresh, rfl,
      by simp [hne]⟩
  · intro hne hK
    have hconv : transferConvert cache req.amount fromAcc.currency toAcc.currency =
        .error .conversionUnavailable := by
      simp [transferConvert, hne, hK]
    unfold transfer
    rw [hfrom, hto]
    simp [not_le.mpr hamt, hneq, hasset, validDestType_true, hconv]

/-- A same-currency transfer request: 50 from the checking account (id 1)
to the credit card (id 3). -/
def reqTransferCard : TransferReq :=
  { fromAccountId := 1, toAccountId := 3, amount := 50, description := "" }

/-- A cross-currency transfer request: 100 from the USD checking account
(id 1) to the EUR savings account (id 2). -/
def reqTransferSavings : TransferReq :=
  { fromAccountId := 1, toAccountId := 2, amount := 100, description := "move" }

/-- C2 witness: transferring 50 from checking to the credit card appends a
withdrawal and a payment that reference each other. -/
theorem transfer_two_linked_legs_witness :
    (0 : ℚ) < reqTransferCard.amount ∧
    reqTransferCard.fromAccountId ≠ reqTransferCard.toAccountId ∧
    findAccount dbFixture reqTransferCard.fromAccountId 1 = some accChecking ∧
    findAccount dbFixture reqTransferCard.toAccountId 1 = some accCard ∧
    isAssetType accChecking.type = true ∧
    transferConvert cacheFixture reqTransferCard.amount accChecking.currency
      accCard.currency = .ok 50 ∧
    commitOk 0 = true ∧
    (∃ resp sTx dTx,
      (transfer commitOk cacheFixture dbFixture 1 reqTransferCard).2 = .ok resp ∧
      (transfer commitOk cacheFixture dbFixture 1 reqTransferCard).1.transactions =
        dbFixture.transactions ++ [sTx, dTx] ∧
      sTx.accountId = accChecking.id ∧ sTx.type = .withdrawal ∧
      dTx.accountId = accCard.id ∧
      (isAssetType accCard.type = true → dTx.type = .deposit) ∧
      (isAssetType accCard.type = false → dTx.type = .payment) ∧
      dTx.type ≠ .expense ∧
      sTx.linkedTransactionId = some dTx.id ∧
      dTx.linkedTransactionId = some sTx.id) :=
  ⟨by decide, by decide, rfl, rfl, rfl, rfl, rfl,
    transfer_two_linked_legs commitOk cacheFixture dbFixture 1 reqTransferCard
      accChecking accCard 50 (by decide) (by decide) rfl rfl rfl rfl rfl
      (by simp [dbFixture])⟩

/-- C3 witness: the cross-currency leg of the claim, on the USD to EUR
transfer with the cached 0.92 rate. -/
theorem transfer_conversion_behaviour_witness :
    (0 : ℚ) < reqTransferSavings.amount ∧
    reqTransferSavings.fromAccountId ≠ reqTransferSavings.toAccountId ∧
    findAccount dbFixture reqTransferSavings.fromAccountId 1 = some accChecking ∧
    findAccount dbFixture reqTransferSavings.toAccountId 1 = some accSavings ∧
    isAssetType accChecking.type = true ∧ commitOk 0 = true ∧
    accChecking.currency ≠ accSavings.currency ∧
    Convert cacheFixture reqTransferSavings.amount accChecking.currency
      accSavings.currency = .ok (100 * (92 / 100)) ∧
    (∃ resp sTx dTx,
      (transfer commitOk cacheFixture dbFixture 1 reqTransferSavings).2 = .ok resp ∧
      (transfer commitOk cacheFixture dbFixture 1 reqTransferSavings).1.transactions =
        dbFixture.transactions ++ [sTx, dTx] ∧
      dTx.amount = 100 * (92 / 100) ∧
      resp.convertedAmount = some (100 * (92 / 100))) :=
  ⟨by decide, by decide, rfl, rfl, rfl, rfl, by decide, rfl,
    (transfer_conversion_behaviour commitOk cacheFixture dbFixture 1 reqTransferSavings
        accChecking accSavings (by decide) (by decide) rfl rfl rfl rfl
        (by simp [dbFixture])).2.1 (100 * (92 / 100)) (by decide) rfl⟩

/-- C7 (amended): the caller-facing response of a successful transfer
carries only the source (withdrawal) transaction, with its link to the
destination leg set, and reports the converted amount and destination
currency exactly when the two accounts' currencies differ. -/
theorem transfer_response_source_only (commit : Nat → Bool) (cache : ExchangeService)
    (db : DBState) (userId : Int) (req : TransferReq) (fromAcc toAcc : Account)
    (toAmount : ℚ)
    (hamt : 0 < req.amount) (hneq : req.fromAccountId ≠ req.toAccountId)
    (hfrom : findAccount db req.fromAccountId userId = some fromAcc)
    (hto : findAccount db req.toAccountId userId = some toAcc)
    (hasset : isAssetType fromAcc.type = true)
    (hconv : transferConvert cache req.amount fromAcc.currency toAcc.currency = .ok toAmount)
    (hcommit : commit 0 = true) :
    ∃ resp,
      (transfer commit cache db userId req).2 = .ok resp ∧
      resp.transaction =
        { transferSourceTx db req fromAcc toAcc with
          linkedTransactionId := some (db.nextTxId + 1) } ∧
      resp.transaction.type = .withdrawal ∧
      resp.transaction.accountId = fromAcc.id ∧
      (fromAcc.currency ≠ toAcc.currency →
        resp.convertedAmount = some toAmount ∧ resp.toCurrency = some toAcc.currency) ∧
      (fromAcc.currency = toAcc.currency →
        resp.convertedAmount = none ∧ resp.toCurrency = none) := by
  rw [transfer_success commit cache db userId req fromAcc toAcc toAmount
    hamt hneq hfrom hto hasset hconv hcommit]
  refine ⟨_, rfl, rfl, rfl, rfl, ?_, ?_⟩ <;> intro h <;> simp [h]

/-- C7 (amended) witness: the cross-currency transfer reports the
converted amount and the destination currency. -/
theorem transfer_response_source_only_witness :
    (0 : ℚ) < reqTransferSavings.amount ∧
    accChecking.currency ≠ accSavings.currency ∧
    (∃ resp,
      (transfer commitOk cacheFixture dbFixture 1 reqTransferSavings).2 = .ok resp ∧
      resp.transaction =
        { transferSourceTx dbFixture reqTransferSavings accChecking accSavings with
          linkedTransactionId := some (dbFixture.nextTxId + 1) } ∧
      resp.transaction.type = .withdrawal ∧
      resp.transaction.accountId = accChecking.id ∧
      (accChecking.currency ≠ accSavings.currency →
        resp.convertedAmount = some (100 * (92 / 100)) ∧
        resp.toCurrency = some accSavings.currency) ∧
      (accChecking.currency = accSavings.currency →
        resp.convertedAmount = none ∧ resp.toCurrency = none)) :=
  ⟨by decide, by decide,
    transfer_response_source_only commitOk cacheFixture dbFixture 1 reqTransferSavings
      accChecking accSavings (100 * (92 / 100)) (by decide) (by decide) rfl rfl rfl rfl rfl⟩

/-- The source-leg row of the checking-to-card fixture transfer, as
persisted and as returned. -/
def srcRowCard : Transaction :=
  { id := 1, accountId := 1, type := .withdrawal, amount := 50,
    description := "Transfer → Card", category := "transfer",
    balanceAfter := 100 - 50, linkedTransactionId := some 2 }

/-- The destination-leg row of the checking-to-card fixture transfer, as
persisted. -/
def destRowCard : Transaction :=
  { id := 2, accountId := 3, type := .payment, amount := 50,
    description := "Transfer ← Checking", category := "transfer",
    balanceAfter := 200 - 50, linkedTransactionId := some 1 }

/-- The caller-facing response of the checking-to-card fixture transfer. -/
def respCard : TransferResponse :=
  { transaction := srcRowCard, convertedAmount := none, toCurrency := none }

/-- C7 counterexample: a successful transfer persists both leg rows, but
the caller-facing response carries only the source transaction; the
destination leg is not part of the returned value. -/
theorem transfer_response_missing_dest_leg_cex :
    (transfer commitOk cacheFixture dbFixture 1 reqTransferCard).2 = .ok respCard ∧
    (transfer commitOk cacheFixture dbFixture 1 reqTransferCard).1.transactions =
      [srcRowCard, destRowCard] ∧
    respCard.transaction ≠ destRowCard := by
  refine ⟨rfl, rfl, ?_⟩
  intro h
  exact absurd (congrArg Transaction.accountId h) (by decide)

/-- C6 counterexample: with validation passed and a commit oracle whose
first attempt fails but whose second attempt would succeed, the handler
surfaces CommitFailed instead of retrying. -/
theorem commit_no_retry_cex :
    findAccount dbFixture 1 1 = some accChecking ∧
    IsValidTransactionType reqDeposit50.type accChecking.type = true ∧
    (0 : ℚ) < reqDeposit50.amount ∧
    commitFailsFirst 0 = false ∧ commitFailsFirst 1 = true ∧
    createTransaction commitFailsFirst dbFixture 1 1 reqDeposit50 =
      (dbFixture, .error .commitFailed) :=
  ⟨rfl, rfl, by decide, rfl, rfl, rfl⟩

/-- C6 (amended): a failed atomic write is surfaced to the caller as
CommitFailed immediately, with no retry and with the state unchanged, for
both the single-leg engine and the transfer engine. -/
theorem commit_failure_surfaced (commit : Nat → Bool) (cache : ExchangeService)
    (db : DBState) (userId accountId : Int) (req : CreateReq) (treq : TransferReq)
    (acc fromAcc toAcc : Account) (toAmount : ℚ)
    (hc : commit 0 = false) :
    (findAccount db accountId userId = some acc →
      IsValidTransactionType req.type acc.type = true → 0 < req.amount →
      createTransaction commit db userId accountId req = (db, .error .commitFailed)) ∧
    (0 < treq.amount → treq.fromAccountId ≠ treq.toAccountId →
      findAccount db treq.fromAccountId userId = some fromAcc →
      findAccount db treq.toAccountId userId = some toAcc →
      isAssetType fromAcc.type = true →
      transferConvert cache treq.amount fromAcc.currency toAcc.currency = .ok toAmount →
      transfer commit cache db userId treq = (db, .error .commitFailed)) := by
  constructor
  · intro hacc hvalid hamt
    unfold createTransaction
    rw [hacc]
    simp [hvalid, not_le.mpr hamt, hc]
  · intro hamt hneq hfrom hto hasset hconv
    unfold transfer
    rw [hfrom, hto]
    simp [not_le.mpr hamt, hneq, hasset, validDestType_true, hconv, hc]

/-- A commit oracle that always fails. -/
def commitNever : Nat → Bool := fun _ => false

/-- C6 (amended) witness: a failing store surfaces CommitFailed on a valid
deposit, leaving the state unchanged. -/
theorem commit_failure_surfaced_witness :
    commitNever 0 = false ∧
    createTransaction commitNever dbFixture 1 1 reqDeposit50 =
      (dbFixture, .error .commitFailed) :=
  ⟨rfl,
    (commit_failure_surfaced commitNever cacheFixture dbFixture 1 1 reqDeposit50
        reqTransferCard accChecking accChecking accCard 50 rfl).1
      rfl rfl (by decide)⟩

/-- C4: each validation error of the two engines is raised by its
documented pre-write condition with the state returned unchanged, and more
generally every error outcome of either engine leaves every account
balance and the whole transaction history exactly as they were. -/
theorem validation_errors_no_mutation (commit : Nat → Bool) (cache : ExchangeService)
    (db : DBState) (userId accountId : Int) (req : CreateReq) (treq : TransferReq) :
    (findAccount db accountId userId = none →
      createTransaction commit db userId accountId req = (db, .error .notFound)) ∧
    (∀ acc, findAccount db accountId userId = some acc →
      IsValidTransactionType req.type acc.type = false →
      createTransaction commit db userId accountId req =
        (db, .error .invalidTransactionType)) ∧
    (∀ acc, findAccount db accountId userId = some acc →
      IsValidTransactionType req.type acc.type = true → req.amount ≤ 0 →
      createTransaction commit db userId accountId req = (db, .error .invalidAmount)) ∧
    (treq.amount ≤ 0 →
      transfer commit cache db userId treq = (db, .error .invalidAmount)) ∧
    (0 < treq.amount → treq.fromAccountId = treq.toAccountId →
      transfer commit cache db userId treq = (db, .error .sameAccount)) ∧
    (0 < treq.amount → treq.fromAccountId ≠ treq.toAccountId →
      findAccount db treq.fromAccountId userId = none →
      transfer commit cache db userId treq = (db, .error .notFound)) ∧
    (∀ fromAcc, 0 < treq.amount → treq.fromAccountId ≠ treq.toAccountId →
      findAccount db treq.fromAccountId userId = some fromAcc →
      findAccount db treq.toAccountId userId = none →
      transfer commit cache db userId treq = (db, .error .notFound)) ∧
    (∀ fromAcc toAcc, 0 < treq.amount → treq.fromAccountId ≠ treq.toAccountId →
      findAccount db treq.fromAccountId userId = some fromAcc →
      findAccount db treq.toAccountId userId = some toAcc →
      isAssetType fromAcc.type = false →
      transfer commit cache db userId treq = (db, .error .invalidDirection)) ∧
    (∀ e, (createTransaction commit db userId accountId req).2 = .error e →
      (createTransaction commit db userId accountId req).1 = db) ∧
    (∀ e, (transfer commit cache db userId treq).2 = .error e →
      (transfer commit cache db userId treq).1 = db) := by
  refine ⟨?_, ?_, ?_, ?_, ?_, ?_, ?_, ?_, ?_, ?_⟩
  · intro h
    unfold createTransaction
    rw [h]
  · intro acc hacc hbad
    unfold createTransaction
    rw [hacc]
    simp [hbad]
  · intro acc hacc hvalid hle
    unfold createTransaction
    rw [hacc]
    simp [hvalid, hle]
  · intro h
    unfold transfer
    simp [h]
  · intro hamt heq
    unfold transfer
    simp [not_le.mpr hamt, heq]
  · intro hamt hneq h
    unfold transfer
    rw [h]
    simp [not_le.mpr hamt, hneq]
  · intro fromAcc hamt hneq hfrom hto
    unfold transfer
    rw [hfrom, hto]
    simp [not_le.mpr hamt, hneq]
  · intro fromAcc toAcc hamt hneq hfrom hto hdir
    unfold transfer
    rw [hfrom, hto]
    simp [not_le.mpr hamt, hneq, hdir]
  · intro e he
    rcases createTransaction_state_or commit db userId accountId req with ⟨tx, htx⟩ | hst
    · rw [he] at htx
      exact Except.noConfusion htx
    · exact hst
  · intro e he
    rcases transfer_state_or commit cache db userId treq with ⟨r, hr⟩ | hst
    · rw [he] at hr
      exact Except.noConfusion hr
    · exact hst

/-- C4 witness: a request against an account id the user does not own
fails with NotFound and leaves the fixture state unchanged. -/
theorem validation_errors_no_mutation_witness :
    findAccount dbFixture 99 1 = none ∧
    createTransaction commitOk dbFixture 1 99 reqDeposit50 =
      (dbFixture, .error .notFound) :=
  ⟨rfl,
    (validation_errors_no_mutation commitOk cacheFixture dbFixture 1 99 reqDeposit50
        reqTransferCard).1 rfl⟩

/-- C9: demonstration of the lost update the code permits: the handler
reads current_balance before db.Begin(), so in the interleaving model two
concurrent Deposit(1) calls on a fresh balance-0 account can both read 0
before either writes; both commits succeed (two rows are appended) yet the
final balance is 1, not 2 as the claim requires. -/
theorem concurrent_deposit_lost_update :
    (runSchedule (initConcurrent 2) [0, 1, 0, 1]).rowCount = 2 ∧
    (runSchedule (initConcurrent 2) [0, 1, 0, 1]).balance = 1 ∧
    (runSchedule (initConcurrent 2) [0, 1, 0, 1]).balance ≠ 2 := by
  have h : runSchedule (initConcurrent 2) [0, 1, 0, 1] =
      { balance := (0 : ℚ) + 1, rowCount := 2,
        calls := [.finished, .finished] } := rfl
  rw [h]
  refine ⟨rfl, by norm_num, by norm_num⟩

/-
Float64 semantics of the balance arithmetic.

The Go handler stores balances in float64 (SQLite REAL) and computes
balanceAfter with one float64 addition or subtraction. The definitions
below give that arithmetic its IEEE-754 binary64 semantics: every
float64 value is an exact rational, and each arithmetic operation rounds
its exact result to 53 significant bits, round to nearest, ties to even.
Subnormals and overflow are not modelled; the uses below stay in the
normal range.
-/

/-- Round a rational to an integer: nearest, ties to even. -/
def rne (q : ℚ) : ℤ :=
  if q - ⌊q⌋ < 1 / 2 then ⌊q⌋
  else if 1 / 2 < q - ⌊q⌋ then ⌊q⌋ + 1
  else if ⌊q⌋ % 2 = 0 then ⌊q⌋ else ⌊q⌋ + 1

/-- IEEE-754 binary64 rounding of a rational in the normal range: round to
an integer multiple of 2 ^ (Int.log 2 |x| - 52), i.e. to 53 significant
bits, nearest, ties to even. -/
def roundB64 (x : ℚ) : ℚ :=
  if x = 0 then 0
  else if 0 < x then
    (rne (x / 2 ^ (Int.log 2 x - 52)) : ℚ) * 2 ^ (Int.log 2 x - 52)
  else
    -((rne (-x / 2 ^ (Int.log 2 (-x) - 52)) : ℚ) * 2 ^ (Int.log 2 (-x) - 52))

/-- The balance-transition switch of TransactionHandler.Create under the
float64 semantics of the Go arithmetic: the same switch as
computeBalanceAfter, with each addition or subtraction rounded to
binary64. -/
def computeBalanceAfterF64 (acc : Account) (txType : TransactionType) (amount : ℚ) : ℚ :=
  match acc.type with
  | .cash | .debit | .saving | .investment =>
      if txType = .deposit then roundB64 (acc.currentBalance + amount)
      else roundB64 (acc.currentBalance - amount)
  | .creditCard =>
      if txType = .expense then roundB64 (acc.creditOwed.getD 0 + amount)
      else roundB64 (acc.creditOwed.getD 0 - amount)
  | .loan => roundB64 (acc.loanCurrentOwed.getD 0 - amount)

/-- The transaction row inserted by a successful Create under float64
balance arithmetic. -/
def createdTransactionF64 (db : DBState) (accountId : Int) (req : CreateReq)
    (acc : Account) : Transaction :=
  { id := db.nextTxId, accountId := accountId, type := req.type, amount := req.amount,
    description := req.description,
    category := if req.category = "" then "other" else req.category,
    balanceAfter := computeBalanceAfterF64 acc req.type req.amount,
    linkedTransactionId := none }

/-- TransactionHandler.Create under the float64 semantics of the Go
arithmetic: identical to createTransaction except that the balance switch
rounds each arithmetic result to binary64, as the float64 code does. -/
def createTransactionF64 (commit : Nat → Bool) (db : DBState) (userId accountId : Int)
    (req : CreateReq) : DBState × Except Err Transaction :=
  match findAccount db accountId userId with
  | none => (db, .error .notFound)
  | some acc =>
    if IsValidTransactionType req.type acc.type = false then
      (db, .error .invalidTransactionType)
    else if req.amount ≤ 0 then
      (db, .error .invalidAmount)
    else
      let balanceAfter := computeBalanceAfterF64 acc req.type req.amount
      if commit 0 = false then
        (db, .error .commitFailed)
      else
        ({ accounts := updateAccounts db.accounts accountId
              (applyBalanceUpdate acc.type balanceAfter),
           transactions := db.transactions ++ [createdTransactionF64 db accountId req acc],
           nextTxId := db.nextTxId + 1 },
         .ok (createdTransactionF64 db accountId req acc))

/-- A successful single-leg create under float64 arithmetic: the analogue
of createTransaction_success. -/
theorem createTransactionF64_success (commit : Nat → Bool) (db : DBState)
    (userId accountId : Int) (req : CreateReq) (acc : Account)
    (hacc : findAccount db accountId userId = some acc)
    (hvalid : IsValidTransactionType req.type acc.type = true)
    (hamt : 0 < req.amount) (hcommit : commit 0 = true) :
    createTransactionF64 commit db userId accountId req =
      ({ accounts := updateAccounts db.accounts accountId
            (applyBalanceUpdate acc.type (computeBalanceAfterF64 acc req.type req.amount)),
         transactions := db.transactions ++ [createdTransactionF64 db accountId req acc],
         nextTxId := db.nextTxId + 1 },
       .ok (createdTransactionF64 db accountId req acc)) := by
  unfold createTransactionF64
  rw [hacc]
  simp [hvalid, hcommit, not_le.mpr hamt]

/-- Rounding 2^53 + 1 to binary64 gives 2^53: the value is a tie between
the neighbouring representables 2^53 and 2^53 + 2, and the even one wins. -/
theorem roundB64_9007199254740993 :
    roundB64 (9007199254740993 : ℚ) = 9007199254740992 := by
  have hlog : Int.log 2 ((9007199254740993 : ℚ)) = 53 := by
    have h1 : (53 : ℤ) ≤ Int.log 2 ((9007199254740993 : ℚ)) := by
      rw [← Int.zpow_le_iff_le_log (by norm_num) (by norm_num)]
      norm_num
    have h2 : Int.log 2 ((9007199254740993 : ℚ)) < 54 := by
      rw [← Int.lt_zpow_iff_log_lt (by norm_num) (by norm_num)]
      norm_num
    omega
  unfold roundB64
  rw [if_neg (by norm_num), if_pos (by norm_num), hlog]
  have he : (53 : ℤ) - 52 = 1 := by norm_num
  rw [he]
  have h2 : ((2 : ℚ)) ^ (1 : ℤ) = 2 := by norm_num
  rw [h2]
  have hfl : ⌊(9007199254740993 : ℚ) / 2⌋ = 4503599627370496 := by
    rw [Int.floor_eq_iff]
    norm_num
  have hrne : rne ((9007199254740993 : ℚ) / 2) = 4503599627370496 := by
    unfold rne
    rw [hfl, if_neg (by norm_num), if_neg (by norm_num), if_pos (by norm_num)]
  rw [hrne]
  norm_num

/-- Rounding 2^53 - 1 to binary64 is exact: the value needs exactly 53
significant bits. -/
theorem roundB64_9007199254740991 :
    roundB64 (9007199254740991 : ℚ) = 9007199254740991 := by
  have hlog : Int.log 2 ((9007199254740991 : ℚ)) = 52 := by
    have h1 : (52 : ℤ) ≤ Int.log 2 ((9007199254740991 : ℚ)) := by
      rw [← Int.zpow_le_iff_le_log (by norm_num) (by norm_num)]
      norm_num
    have h2 : Int.log 2 ((9007199254740991 : ℚ)) < 53 := by
      rw [← Int.lt_zpow_iff_log_lt (by norm_num) (by norm_num)]
      norm_num
    omega
  unfold roundB64
  rw [if_neg (by norm_num), if_pos (by norm_num), hlog]
  have he : (52 : ℤ) - 52 = 0 := by norm_num
  rw [he]
  have h2 : ((2 : ℚ)) ^ (0 : ℤ) = 1 := by norm_num
  rw [h2]
  have hdiv : (9007199254740991 : ℚ) / 1 = 9007199254740991 := div_one _
  rw [hdiv]
  have hfl : ⌊(9007199254740991 : ℚ)⌋ = 9007199254740991 := by
    rw [Int.floor_eq_iff]
    norm_num
  have hrne : rne (9007199254740991 : ℚ) = 9007199254740991 := by
    unfold rne
    rw [hfl, if_pos (by norm_num)]
  rw [hrne]
  norm_num

/-- An investment account whose balance 2^53 sits where the float64
spacing is 2. -/
def accBig : Account :=
  { id := 1, userId := 1, name := "Brokerage", type := .investment, currency := "USD",
    currentBalance := 9007199254740992, creditOwed := none, loanCurrentOwed := none }

/-- A database holding only the 2^53-balance account. -/
def dbBig : DBState :=
  { accounts := [accBig], transactions := [], nextTxId := 1 }

/-- A deposit of 1. -/
def reqDep1 : CreateReq :=
  { type := .deposit, amount := 1, description := "", category := "" }

/-- A withdrawal of 1. -/
def reqWd1 : CreateReq :=
  { type := .withdrawal, amount := 1, description := "", category := "" }

/-- The row the float64 deposit of 1 on the 2^53 account inserts: rounding
absorbs the deposit, balanceAfter stays 2^53. -/
def txDep1 : Transaction :=
  { id := 1, accountId := 1, type := .deposit, amount := 1, description := "",
    category := "other", balanceAfter := 9007199254740992, linkedTransactionId := none }

/-- The row the following float64 withdrawal of 1 inserts: the subtraction
is exact, balanceAfter is 2^53 - 1. -/
def txWd1 : Transaction :=
  { id := 2, accountId := 1, type := .withdrawal, amount := 1, description := "",
    category := "other", balanceAfter := 9007199254740991, linkedTransactionId := none }

/-- C8 counterexample: under the float64 semantics of the code's balance
arithmetic, Deposit(1) then Withdrawal(1) on an asset account with balance
2^53 both succeed yet leave the stored balance at 2^53 - 1, not 2^53: the
deposit is absorbed by rounding (2^53 + 1 ties to the even 2^53) while the
withdrawal is exact, so the round trip does not restore the balance. -/
theorem deposit_withdraw_roundtrip_f64_cex :
    isAssetType accBig.type = true ∧
    (0 : ℚ) < reqDep1.amount ∧ (0 : ℚ) < reqWd1.amount ∧
    findAccount dbBig 1 1 = some accBig ∧
    createTransactionF64 commitOk dbBig 1 1 reqDep1 =
      ({ accounts := [accBig], transactions := [txDep1], nextTxId := 2 }, .ok txDep1) ∧
    createTransactionF64 commitOk
        { accounts := [accBig], transactions := [txDep1], nextTxId := 2 } 1 1 reqWd1 =
      ({ accounts := [{ accBig with currentBalance := 9007199254740991 }],
         transactions := [txDep1, txWd1], nextTxId := 3 }, .ok txWd1) ∧
    ((9007199254740991 : ℚ) ≠ accBig.currentBalance) := by
  have htype : accBig.type = AccountType.investment := rfl
  have hbal1 : computeBalanceAfterF64 accBig reqDep1.type reqDep1.amount =
      9007199254740992 := by
    have hreq : reqDep1.type = TransactionType.deposit := rfl
    have hsum : accBig.currentBalance + reqDep1.amount = (9007199254740993 : ℚ) := by
      norm_num [accBig, reqDep1]
    simp only [computeBalanceAfterF64, htype, hreq]
    rw [if_pos trivial, hsum, roundB64_9007199254740993]
  have hbal2 : computeBalanceAfterF64 accBig reqWd1.type reqWd1.amount =
      9007199254740991 := by
    have hreq : reqWd1.type = TransactionType.withdrawal := rfl
    have hdiff : accBig.currentBalance - reqWd1.amount = (9007199254740991 : ℚ) := by
      norm_num [accBig, reqWd1]
    simp only [computeBalanceAfterF64, htype, hreq]
    rw [if_neg (by simp), hdiff, roundB64_9007199254740991]
  have hrow1 : createdTransactionF64 dbBig 1 reqDep1 accBig = txDep1 := by
    unfold createdTransactionF64
    rw [hbal1]
    rfl
  have hrow2 : createdTransactionF64
      { accounts := [accBig], transactions := [txDep1], nextTxId := 2 } 1 reqWd1 accBig =
      txWd1 := by
    unfold createdTransactionF64
    rw [hbal2]
    rfl
  refine ⟨rfl, by decide, by decide, rfl, ?_, ?_, by norm_num [accBig]⟩
  · rw [createTransactionF64_success commitOk dbBig 1 1 reqDep1 accBig rfl rfl
      (by decide) rfl, hrow1, hbal1]
    rfl
  · rw [createTransactionF64_success commitOk
      { accounts := [accBig], transactions := [txDep1], nextTxId := 2 } 1 1 reqWd1 accBig
      rfl rfl (by decide) rfl, hrow2, hbal2]
    rfl

end Wallet
